import Mathlib

/-!
Verification of the gastown agent-runtime core against its specification.

This file gives a shallow embedding of the orchestration core of the
repository and proves (or refutes) the frozen claims about it.

Embedding conventions:
* Go strings are Lean String values, except terminal-buffer contents,
  which are List Char (a faithful model of a byte sequence that keeps
  prefix and suffix reasoning elementary).
* time.Time instants are Int nanoseconds; the Go zero time is modelled
  as Option.none where the code tests IsZero.
* Errors created with fmt.Errorf are mapped to constructors of an error
  taxonomy; each constructor carries the data interpolated into the
  message and is documented with the exact Go format string.
* Collaborator calls (the tmux driver, the Anthropic client, the claude
  subprocess) are modelled as pure oracles passed in explicitly.
* Goroutine interleavings are modelled as sequences of atomic runtime
  operations (each Go method invocation is one atomic step).
-/

namespace Gastown

/-- AgentRole is a plain string type in the source (part_008 line 74),
with named constants polecat, witness, refinery, mayor, deacon, crew. -/
abbrev AgentRole := String

/-- StartOptions (part_008 lines 41-71); only the fields consulted by the
embedded operations are kept. Defaults are the Go zero values. -/
structure StartOptions where
  agentID : String := ""
  role : AgentRole := ""
  rigName : String := ""
  workerName : String := ""
  systemPrompt : String := ""
  initialPrompt : String := ""
  deriving Repr, DecidableEq

/-- GenerateSessionID (part_008 lines 226-244): a pure switch on the role.
The default case of the Go switch behaves like the polecat case. -/
def GenerateSessionID (opts : StartOptions) : String :=
  if opts.role = "mayor" then "hq-mayor"
  else if opts.role = "deacon" then "hq-deacon"
  else if opts.role = "witness" then "gt-" ++ opts.rigName ++ "-witness"
  else if opts.role = "refinery" then "gt-" ++ opts.rigName ++ "-refinery"
  else if opts.role = "crew" then "gt-" ++ opts.rigName ++ "-crew-" ++ opts.workerName
  else if opts.role = "polecat" then "gt-" ++ opts.rigName ++ "-" ++ opts.workerName
  else "gt-" ++ opts.rigName ++ "-" ++ opts.workerName

/-- extractNewContent (part_009 lines 685-699, tmux runtime): the
terminal-stream diff between the previous capture and the new capture.
Buffer contents are modelled as List Char. strings.HasPrefix becomes
List.isPrefixOf and strings.TrimPrefix becomes dropping the prefix
length. -/
def extractNewContent (old new : List Char) : List Char :=
  if old = [] then new
  else if old.isPrefixOf new then new.drop old.length
  else new

/-! ## Shared status model (part_008) -/

/-- HealthState (part_008 lines 116-123). -/
inductive HealthState where
  | healthy
  | degraded
  | unhealthy
  | unknown
  deriving Repr, DecidableEq

/-- AgentSession (part_008 lines 86-101). StartedAt is an Option Int with
none for the Go zero time. -/
structure AgentSession where
  sessionID : String
  agentID : String := ""
  role : AgentRole := ""
  rigName : String := ""
  workerName : String := ""
  running : Bool := false
  startedAt : Option Int := none
  runtimeType : String := ""
  deriving Repr, DecidableEq

/-- ActivityInfo (part_008 lines 126-132). -/
structure ActivityInfo where
  lastActivity : Option Int := none
  idleDuration : Int := 0
  activityState : String := ""
  lastPrompt : Option Int := none
  lastResponse : Option Int := none
  deriving Repr, DecidableEq

/-- SDKStatus (part_008 lines 195-199). -/
structure SDKStatus where
  conversationID : String := ""
  tokensUsed : Nat := 0
  turnCount : Nat := 0
  deriving Repr, DecidableEq

/-- AgentStatus (part_008 lines 104-113); the runtime-specific detail
blocks are kept only for the SDK runtime (the tmux block is not needed
by any claim). -/
structure AgentStatus where
  session : AgentSession
  health : HealthState
  activity : ActivityInfo := {}
  sdkInfo : Option SDKStatus := none
  deriving Repr, DecidableEq

/-- Error taxonomy of the runtime layer (spec section 7). The source
creates errors with fmt.Errorf; each constructor records the format
string it stands for:
* capacityExceeded n: "max concurrent sessions reached (n)"
* sessionAlreadyExists id: "session already exists: id"
* sessionNotFound id: "session not found: id"
* sessionClosed: "session closed". -/
inductive RuntimeErr where
  | capacityExceeded (limit : Nat)
  | sessionAlreadyExists (id : String)
  | sessionNotFound (id : String)
  | sessionClosed
  deriving Repr, DecidableEq

/-! ## Process-backed (SDK) runtime (sdk_runtime.go) -/

/-- SDKRuntimeConfig: the configuration consumed by NewSDKRuntime. The
struct lives in internal/config (not part of the given sources); its
fields and Go zero-value defaults are reconstructed from every use in
sdk_runtime.go (cfg.APIKey line 94, cfg.MaxConcurrentSessions line 81,
cfg.Model line 378, cfg.MaxTokens line 384) and from the tests. -/
structure SDKRuntimeConfig where
  apiKey : String := ""
  maxConcurrentSessions : Int := 0
  model : String := ""
  maxTokens : Int := 0
  deriving Repr, DecidableEq

/-- sdkSession (sdk_runtime.go lines 38-67): the embedded AgentSession
plus the mutable timing counters guarded by its mutex. The channel and
subprocess fields are represented by the run-loop events of the
transition system below. -/
structure sdkSession where
  agent : AgentSession
  lastPrompt : Option Int := none
  lastResp : Option Int := none
  tokenCount : Nat := 0
  turnCount : Nat := 0
  deriving Repr, DecidableEq

/-- SDKRuntime (sdk_runtime.go lines 23-35): the session table
(sync.Map, modelled as an association list keyed by session id), the
admission semaphore (a counting channel: semCap is its capacity,
semCount the slots currently held), and the construction-time mode
flag useCLI. -/
structure SDKRuntime where
  useCLI : Bool := true
  semCap : Nat := 10
  semCount : Nat := 0
  sessions : List sdkSession := []
  deriving Repr, DecidableEq

/-- ProcEnv models the ambient process environment (a map from variable
names to values), available to the Go code through os.Getenv. -/
def ProcEnv := String → Option String

/-- NewSDKRuntime (sdk_runtime.go lines 76-104): a nil config is
replaced by the zero config; the semaphore capacity defaults to 10 when
the configured value is not positive; direct-API mode is selected if
and only if cfg.APIKey is non-empty. The env argument is the ambient
process environment: the constructor makes no environment read (there
is no os.Getenv in the function), so the result does not depend on it. -/
def NewSDKRuntime (cfg? : Option SDKRuntimeConfig) (env : ProcEnv) : SDKRuntime :=
  let cfg := cfg?.getD {}
  let maxConcurrent : Int :=
    if cfg.maxConcurrentSessions ≤ 0 then 10 else cfg.maxConcurrentSessions
  { useCLI := cfg.apiKey == ""
    semCap := maxConcurrent.toNat
    semCount := 0
    sessions := [] }

/-- Membership of a session id in the runtime session table
(r.sessions.Load(sessionID) succeeding). -/
def SDKRuntime.hasSessionEntry (r : SDKRuntime) (sessionID : String) : Bool :=
  r.sessions.any fun s => s.agent.sessionID == sessionID

/-- The fresh session record built by a successful Start
(sdk_runtime.go lines 131-149). -/
def newSession (opts : StartOptions) (now : Int) : sdkSession :=
  { agent :=
      { sessionID := GenerateSessionID opts
        agentID := opts.agentID
        role := opts.role
        rigName := opts.rigName
        workerName := opts.workerName
        running := true
        startedAt := some now
        runtimeType := "sdk" } }

/-- SDKRuntime.Start (sdk_runtime.go lines 106-168). The select over the
semaphore with a default branch is a non-blocking acquire: it succeeds
exactly when fewer than semCap slots are held, and otherwise fails
immediately with capacityExceeded. A successful acquire is followed by
the duplicate-id check, which releases the slot again on failure. The
context branch of the select is not modelled (claims assume a live
context). The spawned run loop and the optional initial prompt do not
change the table or the semaphore. -/
def SDKRuntime.start (r : SDKRuntime) (opts : StartOptions) (now : Int) :
    Except RuntimeErr String × SDKRuntime :=
  if r.semCount < r.semCap then
    let r1 : SDKRuntime := { r with semCount := r.semCount + 1 }
    let sessionID := GenerateSessionID opts
    if r1.hasSessionEntry sessionID then
      (Except.error (RuntimeErr.sessionAlreadyExists sessionID),
       { r1 with semCount := r1.semCount - 1 })
    else
      (Except.ok sessionID,
       { r1 with sessions := newSession opts now :: r1.sessions })
  else
    (Except.error (RuntimeErr.capacityExceeded r.semCap), r)

/-- SDKRuntime.Stop (sdk_runtime.go lines 688-717): a no-op returning no
error when the id is not in the table; otherwise the session is
cancelled, removed from the table, and exactly one semaphore slot is
released (line 714). Stop always returns nil. -/
def SDKRuntime.stop (r : SDKRuntime) (sessionID : String) (force : Bool) :
    Except RuntimeErr Unit × SDKRuntime :=
  if r.hasSessionEntry sessionID then
    (Except.ok (),
     { r with
        sessions := r.sessions.filter fun s => s.agent.sessionID != sessionID
        semCount := r.semCount - 1 })
  else
    (Except.ok (), r)

/-- The deferred cleanup of the session run loop (sdk_runtime.go lines
200-205 for run, 223-228 for runCLI): when the loop exits on its own
(context cancel, prompt-channel close, or a backend-start failure in
CLI mode) it closes the response channel and sets Running to false. It
does not touch the session table or the semaphore. -/
def sdkSession.runExit (r : SDKRuntime) (sessionID : String) : SDKRuntime :=
  { r with
      sessions := r.sessions.map fun s =>
        if s.agent.sessionID == sessionID then { s with agent := { s.agent with running := false } }
        else s }

/-- One nanosecond-valued minute (time.Minute). -/
def minuteNS : Int := 60 * 1000000000

/-- The idle-duration computation of SDKRuntime.GetStatus
(sdk_runtime.go lines 812-815): time since the last response, or time
since the session start when no response was ever recorded. -/
def sdkIdleDuration (session : sdkSession) (now : Int) : Int :=
  match session.lastResp with
  | some t => now - t
  | none => now - session.agent.startedAt.getD 0

/-- The activity-state derivation of SDKRuntime.GetStatus
(sdk_runtime.go lines 811-820): stuck above five minutes of idling,
stale above one minute, active otherwise. -/
def sdkActivityState (idleDuration : Int) : String :=
  if idleDuration > 5 * minuteNS then "stuck"
  else if idleDuration > 1 * minuteNS then "stale"
  else "active"

/-- SDKRuntime.GetStatus (sdk_runtime.go lines 792-838): an unknown id
yields a synthesized status (running false, health unknown) and no
error; a live entry yields health healthy or unhealthy from its Running
flag and the activity block computed from its timing fields. -/
def SDKRuntime.getStatus (r : SDKRuntime) (sessionID : String) (now : Int) :
    Except RuntimeErr AgentStatus :=
  match r.sessions.find? (fun s => s.agent.sessionID == sessionID) with
  | none =>
      Except.ok
        { session := { sessionID := sessionID, running := false, runtimeType := "sdk" }
          health := HealthState.unknown }
  | some session =>
      let health := if session.agent.running then HealthState.healthy else HealthState.unhealthy
      let idleDuration := sdkIdleDuration session now
      Except.ok
        { session := session.agent
          health := health
          activity :=
            { lastActivity := session.lastResp
              idleDuration := idleDuration
              activityState := sdkActivityState idleDuration
              lastPrompt := session.lastPrompt
              lastResponse := session.lastResp }
          sdkInfo := some
            { conversationID := sessionID
              tokensUsed := session.tokenCount
              turnCount := session.turnCount } }

/-- The atomic runtime operations of the transition system: a Start
call, a Stop call, and a run loop exiting on its own (the runExit
cleanup; in CLI mode this happens without Stop when spawning the claude
subprocess fails). -/
inductive SDKEvent where
  | start (opts : StartOptions) (now : Int)
  | stop (sessionID : String) (force : Bool)
  | runExit (sessionID : String)
  deriving Repr

/-- The state transition of one event (results discarded). -/
def SDKRuntime.step (r : SDKRuntime) : SDKEvent → SDKRuntime
  | SDKEvent.start opts now => (r.start opts now).2
  | SDKEvent.stop sessionID force => (r.stop sessionID force).2
  | SDKEvent.runExit sessionID => sdkSession.runExit r sessionID

/-- Running a sequence of events from a state. -/
def SDKRuntime.runTrace (r : SDKRuntime) (events : List SDKEvent) : SDKRuntime :=
  events.foldl SDKRuntime.step r

/-- The runtime invariant: the number of held semaphore slots equals the
number of table entries, never exceeds the capacity, and live session
ids are unique. -/
def SDKRuntime.Inv (r : SDKRuntime) : Prop :=
  r.semCount = r.sessions.length
  ∧ r.sessions.length ≤ r.semCap
  ∧ (r.sessions.map fun s => s.agent.sessionID).Nodup

instance (r : SDKRuntime) : Decidable r.Inv := by
  unfold SDKRuntime.Inv
  infer_instance

/-! ## Terminal-backed (tmux) runtime (part_009 lines 390-898) -/

/-- The tmux server as seen through the collaborator driver: the set of
live session names. Collaborator calls (NewSession, SendKeys, KillSession,
SetEnvironment, theming) are modelled as infallible; HasSession is a pure
membership test on this set. -/
structure TmuxServer where
  live : List String := []
  deriving Repr, DecidableEq

/-- Session-level probes of the tmux driver used by GetStatus:
IsClaudeRunning, and the pane activity timestamp (an instant, or none
when unavailable or unparsable). -/
structure TmuxProbes where
  isClaudeRunning : String → Bool
  activity : String → Option Int

/-- TmuxRuntime (part_009 lines 405-408): the driver handle plus the
tracked-session table (sync.Map, modelled as an association list). -/
structure TmuxRuntime where
  server : TmuxServer := {}
  sessions : List (String × AgentSession) := []
  deriving Repr, DecidableEq

/-- TmuxRuntime.Start (part_009 lines 438-506): fails with
sessionAlreadyExists when a tmux session with the computed id already
exists; otherwise creates the tmux session, configures it (environment,
theme, startup command — collaborator calls that do not affect the
claims), stores the session record and returns it. The readiness wait
and initial prompt do not change the tables. -/
def TmuxRuntime.start (r : TmuxRuntime) (opts : StartOptions) (now : Int) :
    Except RuntimeErr AgentSession × TmuxRuntime :=
  let sessionID := GenerateSessionID opts
  if r.server.live.contains sessionID then
    (Except.error (RuntimeErr.sessionAlreadyExists sessionID), r)
  else
    let session : AgentSession :=
      { sessionID := sessionID
        agentID := opts.agentID
        role := opts.role
        rigName := opts.rigName
        workerName := opts.workerName
        running := true
        startedAt := some now
        runtimeType := "tmux" }
    (Except.ok session,
     { server := { live := sessionID :: r.server.live }
       sessions := (sessionID, session) :: r.sessions })

/-- The activity block computed by TmuxRuntime.GetStatus (part_009
lines 756-775) from the pane activity timestamp, when present. -/
def tmuxActivity (probes : TmuxProbes) (sessionID : String) (now : Int) : ActivityInfo :=
  match probes.activity sessionID with
  | none => {}
  | some t =>
      let idle := now - t
      let state :=
        if idle > 5 * minuteNS then "stuck"
        else if idle > 1 * minuteNS then "stale"
        else "active"
      { lastActivity := some t, idleDuration := idle, activityState := state }

/-- TmuxRuntime.GetStatus (part_009 lines 707-778): the session record
is taken from the tracked table or synthesized, its Running flag is
overwritten by the live HasSession probe; when the tmux session is
absent the health is unhealthy and the status is returned with no
error; otherwise health is healthy or degraded depending on the
IsClaudeRunning probe. (The TmuxInfo detail block is omitted: no claim
mentions it.) -/
def TmuxRuntime.getStatus (r : TmuxRuntime) (probes : TmuxProbes)
    (sessionID : String) (now : Int) : Except RuntimeErr AgentStatus :=
  let running := r.server.live.contains sessionID
  let session0 : AgentSession :=
    match r.sessions.lookup sessionID with
    | some st => st
    | none => { sessionID := sessionID, running := running, runtimeType := "tmux" }
  let session := { session0 with running := running }
  if !running then
    Except.ok { session := session, health := HealthState.unhealthy }
  else
    let health :=
      if probes.isClaudeRunning sessionID then HealthState.healthy
      else HealthState.degraded
    Except.ok
      { session := session
        health := health
        activity := tmuxActivity probes sessionID now }

/-! ## Direct-API tool-call continuation (sdk_runtime.go lines 490-625) -/

/-- A content block of a conversation message or of a model reply: the
variants handled by handlePrompt and handleToolResults. The tool-use
input payload plays no role in the control flow and is omitted. -/
inductive ContentBlock where
  | text (s : String)
  | toolUse (id : String) (name : String)
  | toolResult (callID : String)
  deriving Repr, DecidableEq

/-- One reply of the model: its content blocks and its stop reason. -/
structure ModelReply where
  content : List ContentBlock
  stopReason : String
  deriving Repr, DecidableEq

/-- A conversation message (anthropic.MessageParam): role and content. -/
structure MessageParam where
  role : String
  content : List ContentBlock
  deriving Repr, DecidableEq

/-- The tool_use blocks with a non-empty id of a block list — the blocks
handleToolResults extracts from the last assistant message
(sdk_runtime.go lines 496-531). -/
def toolUseBlocks (blocks : List ContentBlock) : List ContentBlock :=
  blocks.filter fun b =>
    match b with
    | ContentBlock.toolUse id _ => id != ""
    | _ => false

/-- Whether a reply contains a tool_use block (the hasToolUse flag of
sdk_runtime.go lines 581-594). -/
def hasToolUse (blocks : List ContentBlock) : Bool :=
  blocks.any fun b =>
    match b with
    | ContentBlock.toolUse _ _ => true
    | _ => false

/-- The tool-result user message that handleToolResults appends for the
pending tool_use blocks (sdk_runtime.go lines 520-539). -/
def toolResultsMessage (pending : List ContentBlock) : MessageParam :=
  { role := "user"
    content := pending.map fun b =>
      match b with
      | ContentBlock.toolUse id _ => ContentBlock.toolResult id
      | b => b }

/-- The number of Messages.New model calls performed by one run of
handleToolResults (sdk_runtime.go lines 490-625), given the
conversation so far and an oracle listing the successive model replies.
Each recursion level consumes one reply: it returns without a call when
the last conversation message holds no pending tool_use block (line
534), otherwise appends the tool results, makes one model call (line
569), appends the assistant reply, and recurses (line 618) exactly when
the reply contains a tool_use block and its stop reason is tool_use.
The recursion in the source is bounded only by the oracle running out
of replies — there is no turn-count guard. -/
def handleToolResultsCalls (conversation : List MessageParam) :
    List ModelReply → Nat
  | [] => 0
  | reply :: rest =>
      let pending :=
        match conversation.getLast? with
        | some lastMsg => toolUseBlocks lastMsg.content
        | none => []
      if pending.isEmpty then 0
      else
        let conv1 := conversation ++ [toolResultsMessage pending]
        let conv2 :=
          if reply.content.isEmpty then conv1
          else conv1 ++ [{ role := "assistant", content := reply.content }]
        1 + (if hasToolUse reply.content && reply.stopReason == "tool_use" then
               handleToolResultsCalls conv2 rest
             else 0)

/-- The property claimed of the continuation: some maximum-turn guard
uniformly bounds the number of model calls of a single continuation,
whatever the conversation and however long the chain of tool_use
replies. -/
def toolContinuationBounded : Prop :=
  ∃ N, ∀ (conversation : List MessageParam) (oracle : List ModelReply),
    handleToolResultsCalls conversation oracle ≤ N

/-- An assistant message holding one pending tool_use block. -/
def asstToolMsg : MessageParam :=
  { role := "assistant", content := [ContentBlock.toolUse "tu1" "echo"] }

/-- The tool-result user message the continuation appends for the
pending block of asstToolMsg. -/
def trMsg1 : MessageParam := toolResultsMessage (toolUseBlocks asstToolMsg.content)

/-- A conversation whose last message is an assistant message holding
one pending tool_use block. -/
def convPendingTool : List MessageParam := [asstToolMsg]

/-- The pathological model reply: one tool_use block, stop reason
tool_use. -/
def toolUseReply : ModelReply :=
  { content := [ContentBlock.toolUse "tu1" "echo"], stopReason := "tool_use" }

/-- A terminal reply: text only, stop reason end_turn. -/
def endTurnReply : ModelReply :=
  { content := [ContentBlock.text "done"], stopReason := "end_turn" }

/-! ## API gateway routing (internal/api/server.go) -/

/-- A segment of a ServeMux pattern: a literal, or a single-segment
wildcard such as the {id} of the registered patterns. -/
inductive PatSeg where
  | lit (s : String)
  | wildcard
  deriving Repr, DecidableEq

/-- The handlers of the server, named after the Go methods. -/
inductive HTTPHandler where
  | createSession
  | deleteSession
  | getSession
  | listSessions
  | captureOutput
  | webSocket
  | health
  deriving Repr, DecidableEq

/-- The complete route table registered by Server.Start (server.go
lines 40-58): method, pattern, handler. -/
def registeredRoutes : List (String × List PatSeg × HTTPHandler) :=
  [("POST", [PatSeg.lit "sessions"], HTTPHandler.createSession),
   ("DELETE", [PatSeg.lit "sessions", PatSeg.wildcard], HTTPHandler.deleteSession),
   ("GET", [PatSeg.lit "sessions", PatSeg.wildcard], HTTPHandler.getSession),
   ("GET", [PatSeg.lit "sessions"], HTTPHandler.listSessions),
   ("GET", [PatSeg.lit "sessions", PatSeg.wildcard, PatSeg.lit "output"], HTTPHandler.captureOutput),
   ("GET", [PatSeg.lit "sessions", PatSeg.wildcard, PatSeg.lit "ws"], HTTPHandler.webSocket),
   ("GET", [PatSeg.lit "health"], HTTPHandler.health)]

/-- ServeMux pattern matching for the registered patterns: a pattern
matches a path when they have the same number of segments and every
literal segment agrees (a wildcard captures exactly one segment). -/
def matchPattern : List PatSeg → List String → Bool
  | [], [] => true
  | PatSeg.lit s :: ps, x :: xs => s == x && matchPattern ps xs
  | PatSeg.wildcard :: ps, _ :: xs => matchPattern ps xs
  | _, _ => false

/-- Dispatch of a request to the registered route table; none models
the ServeMux falling through to its not-found handler. The registered
patterns are pairwise non-overlapping for any fixed method and segment
count, so first-match dispatch agrees with ServeMux precedence. -/
def dispatch (method : String) (path : List String) : Option HTTPHandler :=
  (registeredRoutes.find? fun route =>
    route.1 == method && matchPattern route.2.1 path).map fun route => route.2.2

/-! ## Concrete fixtures used by witnesses and counterexamples -/

/-- An empty ambient process environment. -/
def envEmpty : ProcEnv := fun _ => none

/-- A runtime with ceiling 2 holding one live session hq-mayor. -/
def sdkR1 : SDKRuntime :=
  ((NewSDKRuntime (some { maxConcurrentSessions := 2 }) envEmpty).start
    { role := "mayor" } 0).2

/-- A runtime with ceiling 1 holding one live session hq-mayor: its
ceiling is exhausted. -/
def sdkFull : SDKRuntime :=
  ((NewSDKRuntime (some { maxConcurrentSessions := 1 }) envEmpty).start
    { role := "mayor" } 0).2

/-- A tmux runtime holding one live session hq-mayor. -/
def tmuxR1 : TmuxRuntime :=
  ((TmuxRuntime.start {} { role := "mayor" } 0)).2

/-- Probes that answer negatively everywhere. -/
def probesEmpty : TmuxProbes :=
  { isClaudeRunning := fun _ => false, activity := fun _ => none }

instance {ε α : Type} [DecidableEq ε] [DecidableEq α] : DecidableEq (Except ε α) := fun a b =>
  match a, b with
  | Except.ok x, Except.ok y =>
      match decEq x y with
      | Decidable.isTrue h => Decidable.isTrue (congrArg Except.ok h)
      | Decidable.isFalse h => Decidable.isFalse fun hc => h (Except.ok.inj hc)
  | Except.error x, Except.error y =>
      match decEq x y with
      | Decidable.isTrue h => Decidable.isTrue (congrArg Except.error h)
      | Decidable.isFalse h => Decidable.isFalse fun hc => h (Except.error.inj hc)
  | Except.ok _, Except.error _ => Decidable.isFalse fun hc => Except.noConfusion hc
  | Except.error _, Except.ok _ => Decidable.isFalse fun hc => Except.noConfusion hc

lemma hasSessionEntry_iff (r : SDKRuntime) (id : String) :
    r.hasSessionEntry id = true ↔ ∃ s ∈ r.sessions, s.agent.sessionID = id := by
  simp [SDKRuntime.hasSessionEntry, List.any_eq_true]

lemma filter_ne_key_length (id : String) :
    ∀ l : List sdkSession,
      (l.map fun s => s.agent.sessionID).Nodup →
      (∃ s ∈ l, s.agent.sessionID = id) →
      (l.filter fun s => s.agent.sessionID != id).length + 1 = l.length := by
  intro l
  induction l with
  | nil => intro _ h; simp at h
  | cons a tl ih =>
    intro hnd hmem
    simp only [List.map_cons, List.nodup_cons] at hnd
    by_cases ha : a.agent.sessionID = id
    · have hfilter : tl.filter (fun s => s.agent.sessionID != id) = tl := by
        apply List.filter_eq_self.mpr
        intro b hb
        simp only [bne_iff_ne, ne_eq, decide_eq_true_eq]
        intro hbid
        apply hnd.1
        rw [ha, ← hbid]
        exact List.mem_map_of_mem _ hb
      simp [ha, hfilter]
    · have hmem' : ∃ s ∈ tl, s.agent.sessionID = id := by
        rcases hmem with ⟨s, hs, hsid⟩
        rcases List.mem_cons.mp hs with rfl | hstl
        · exact absurd hsid ha
        · exact ⟨s, hstl, hsid⟩
      have := ih hnd.2 hmem'
      simp only [List.filter_cons, List.length_cons]
      have hpred : (a.agent.sessionID != id) = true := by
        simpa [bne_iff_ne] using ha
      rw [hpred]
      simp only [if_true, List.length_cons]
      omega

lemma runExit_keys (r : SDKRuntime) (id : String) :
    ((sdkSession.runExit r id).sessions.map fun s => s.agent.sessionID)
      = r.sessions.map fun s => s.agent.sessionID := by
  simp only [sdkSession.runExit, List.map_map]
  apply List.map_congr_left
  intro s _
  simp only [Function.comp_apply]
  split <;> rfl

lemma start_full (r : SDKRuntime) (opts : StartOptions) (now : Int)
    (h : ¬ r.semCount < r.semCap) :
    r.start opts now = (Except.error (RuntimeErr.capacityExceeded r.semCap), r) := by
  simp [SDKRuntime.start, h]

lemma start_dup (r : SDKRuntime) (opts : StartOptions) (now : Int)
    (hfree : r.semCount < r.semCap)
    (hdup : r.hasSessionEntry (GenerateSessionID opts) = true) :
    r.start opts now
      = (Except.error (RuntimeErr.sessionAlreadyExists (GenerateSessionID opts)), r) := by
  have hdup1 : SDKRuntime.hasSessionEntry { r with semCount := r.semCount + 1 }
      (GenerateSessionID opts) = true := hdup
  simp [SDKRuntime.start, hfree, hdup1]

lemma start_ok (r : SDKRuntime) (opts : StartOptions) (now : Int)
    (hfree : r.semCount < r.semCap)
    (hdup : r.hasSessionEntry (GenerateSessionID opts) = false) :
    r.start opts now
      = (Except.ok (GenerateSessionID opts),
         { r with semCount := r.semCount + 1
                  sessions := newSession opts now :: r.sessions }) := by
  have hdup1 : SDKRuntime.hasSessionEntry { r with semCount := r.semCount + 1 }
      (GenerateSessionID opts) = false := hdup
  simp [SDKRuntime.start, hfree, hdup1]

lemma stop_live (r : SDKRuntime) (sessionID : String) (force : Bool)
    (hlive : r.hasSessionEntry sessionID = true) :
    r.stop sessionID force
      = (Except.ok (),
         { r with
            sessions := r.sessions.filter fun s => s.agent.sessionID != sessionID
            semCount := r.semCount - 1 }) := by
  simp [SDKRuntime.stop, hlive]

lemma stop_dead (r : SDKRuntime) (sessionID : String) (force : Bool)
    (hdead : r.hasSessionEntry sessionID = false) :
    r.stop sessionID force = (Except.ok (), r) := by
  simp [SDKRuntime.stop, hdead]

/-- Preservation of the runtime invariant by every atomic operation. -/
theorem SDKRuntime.Inv_step (r : SDKRuntime) (e : SDKEvent) (h : r.Inv) :
    (r.step e).Inv := by
  obtain ⟨hcount, hcap, hnd⟩ := h
  cases e with
  | start opts now =>
    show ((r.start opts now).2).Inv
    by_cases hfree : r.semCount < r.semCap
    · by_cases hdup : r.hasSessionEntry (GenerateSessionID opts) = true
      · rw [start_dup r opts now hfree hdup]
        exact ⟨hcount, hcap, hnd⟩
      · rw [start_ok r opts now hfree (by simpa using hdup)]
        refine ⟨by simp [hcount], by simp; omega, ?_⟩
        simp only [List.map_cons, List.nodup_cons]
        refine ⟨?_, hnd⟩
        intro hmemkey
        apply hdup
        rw [hasSessionEntry_iff]
        rcases List.mem_map.mp hmemkey with ⟨s, hs, hsid⟩
        exact ⟨s, hs, by simpa [newSession] using hsid⟩
    · rw [start_full r opts now hfree]
      exact ⟨hcount, hcap, hnd⟩
  | stop sessionID force =>
    show ((r.stop sessionID force).2).Inv
    by_cases hlive : r.hasSessionEntry sessionID = true
    · rw [stop_live r sessionID force hlive]
      have hmem := (hasSessionEntry_iff r sessionID).mp hlive
      have hlen := filter_ne_key_length sessionID r.sessions hnd hmem
      refine ⟨by simp; omega, ?_, ?_⟩
      · simp only
        omega
      · exact hnd.sublist (List.Sublist.map _ (List.filter_sublist _))
    · rw [stop_dead r sessionID force (by simpa using hlive)]
      exact ⟨hcount, hcap, hnd⟩
  | runExit sessionID =>
    show (sdkSession.runExit r sessionID).Inv
    have hkeys := runExit_keys r sessionID
    have hlen : (sdkSession.runExit r sessionID).sessions.length = r.sessions.length := by
      have := congrArg List.length hkeys
      simpa using this
    have hsem : (sdkSession.runExit r sessionID).semCount = r.semCount := rfl
    have hcap2 : (sdkSession.runExit r sessionID).semCap = r.semCap := rfl
    exact ⟨by omega, by omega, by rw [hkeys]; exact hnd⟩

/-- The invariant is preserved by any trace of operations. -/
theorem SDKRuntime.Inv_runTrace (r : SDKRuntime) (h : r.Inv) (events : List SDKEvent) :
    (r.runTrace events).Inv := by
  induction events generalizing r with
  | nil => exact h
  | cons e es ih => exact ih (r.step e) (r.Inv_step e h)

/-- A fresh runtime satisfies the invariant. -/
theorem NewSDKRuntime_Inv (cfg? : Option SDKRuntimeConfig) (env : ProcEnv) :
    (NewSDKRuntime cfg? env).Inv :=
  ⟨rfl, by simp [NewSDKRuntime], List.nodup_nil⟩

lemma any_key_filter_ne (id : String) (l : List sdkSession) :
    ((l.filter fun s => s.agent.sessionID != id).any
      fun s => s.agent.sessionID == id) = false := by
  induction l with
  | nil => rfl
  | cons a tl ih =>
    by_cases ha : a.agent.sessionID = id
    · simp [List.filter_cons, ha, ih]
    · simp [List.filter_cons, ha, ih]

/-! ## Claim theorems -/

/-- C6: session-id generation is a pure, deterministic function of
(role, team, worker): town roles map to fixed names, team-singleton
roles to gt-team-role, per-worker roles to gt-team-worker (polecat) or
gt-team-crew-worker (crew); in particular the four concrete examples of
the spec hold. (The RigName field of the source is the team of the
spec.) -/
theorem generateSessionID_follows_grammar :
    ∀ team worker : String,
      GenerateSessionID { role := "mayor" } = "hq-mayor"
      ∧ GenerateSessionID { role := "deacon" } = "hq-deacon"
      ∧ GenerateSessionID { role := "witness", rigName := team, workerName := worker }
          = "gt-" ++ team ++ "-witness"
      ∧ GenerateSessionID { role := "refinery", rigName := team, workerName := worker }
          = "gt-" ++ team ++ "-refinery"
      ∧ GenerateSessionID { role := "polecat", rigName := team, workerName := worker }
          = "gt-" ++ (team ++ "-" ++ worker)
      ∧ GenerateSessionID { role := "crew", rigName := team, workerName := worker }
          = "gt-" ++ (team ++ "-crew-" ++ worker)
      ∧ GenerateSessionID { role := "witness", rigName := "acme" } = "gt-acme-witness"
      ∧ GenerateSessionID { role := "polecat", rigName := "acme", workerName := "w1" }
          = "gt-acme-w1"
      ∧ GenerateSessionID { role := "crew", rigName := "acme", workerName := "max" }
          = "gt-acme-crew-max" := by
  intro team worker
  refine ⟨rfl, rfl, ?_, ?_, ?_, ?_, by decide, by decide, by decide⟩ <;>
    simp [GenerateSessionID, String.append_assoc]

/-- C7: the terminal-diff rule. If new has old as a prefix the result
is the suffix of new after old (stated both as the equation on
appended suffixes and through the drop form); the result is empty when
old equals new, all of new when old is empty, and all of new when old
is not a prefix of new. -/
theorem extractNewContent_diff_rule :
    ∀ old suffix new : List Char,
      extractNewContent old (old ++ suffix) = suffix
      ∧ extractNewContent old new
          = (if old.isPrefixOf new then new.drop old.length else new)
      ∧ extractNewContent old old = []
      ∧ extractNewContent [] new = new := by
  intro old suffix new
  refine ⟨?_, ?_, ?_, by simp [extractNewContent]⟩
  · by_cases h : old = []
    · simp [extractNewContent, h]
    · have hpre : old.isPrefixOf (old ++ suffix) = true := by
        rw [ List.isPrefixOf_iff_prefix]
        exact List.prefix_append old suffix
      simp [extractNewContent, h, hpre]
  · by_cases h : old = []
    · subst h
      simp [extractNewContent]
    · simp [extractNewContent, h]
  · by_cases h : old = []
    · simp [extractNewContent, h]
    · have hpre : old.isPrefixOf old = true := by
        rw [ List.isPrefixOf_iff_prefix]
      simp [extractNewContent, h, hpre]

/-- C1 (amended): every successful Start acquires exactly one admission
slot and every failed Start leaves the held-slot count unchanged; the
slot is released exactly once, by the first Stop of the session (a
Stop of an id not in the table is a no-op, so a second Stop cannot
release twice); an internal run-loop exit does NOT release the slot
(the deferred cleanup of run and runCLI never touches the semaphore),
so a session terminated internally holds its slot until Stop; and
every operation preserves the runtime invariant (held slots = live
table entries, never above the ceiling, ids unique). -/
theorem sdk_slot_release_discipline (r : SDKRuntime) (h : r.Inv) :
    (∀ opts now sid r2, r.start opts now = (Except.ok sid, r2) →
        r2.semCount = r.semCount + 1)
    ∧ (∀ opts now err r2, r.start opts now = (Except.error err, r2) →
        r2.semCount = r.semCount)
    ∧ (∀ sessionID force,
        r.hasSessionEntry sessionID = true →
          (r.stop sessionID force).2.semCount + 1 = r.semCount
          ∧ (r.stop sessionID force).2.hasSessionEntry sessionID = false)
    ∧ (∀ sessionID force,
        r.hasSessionEntry sessionID = false → (r.stop sessionID force).2 = r)
    ∧ (∀ sessionID, (sdkSession.runExit r sessionID).semCount = r.semCount)
    ∧ (∀ e, (r.step e).Inv) := by
  refine ⟨?_, ?_, ?_, ?_, fun _ => rfl, fun e => r.Inv_step e h⟩
  · intro opts now sid r2 heq
    by_cases hfree : r.semCount < r.semCap
    · by_cases hdup : r.hasSessionEntry (GenerateSessionID opts) = true
      · rw [start_dup r opts now hfree hdup] at heq
        simp at heq
      · rw [start_ok r opts now hfree (by simpa using hdup)] at heq
        cases heq
        rfl
    · rw [start_full r opts now hfree] at heq
      simp at heq
  · intro opts now err r2 heq
    by_cases hfree : r.semCount < r.semCap
    · by_cases hdup : r.hasSessionEntry (GenerateSessionID opts) = true
      · rw [start_dup r opts now hfree hdup] at heq
        cases heq
        rfl
      · rw [start_ok r opts now hfree (by simpa using hdup)] at heq
        simp at heq
    · rw [start_full r opts now hfree] at heq
      cases heq
      rfl
  · intro sessionID force hlive
    rw [stop_live r sessionID force hlive]
    have hmem := (hasSessionEntry_iff r sessionID).mp hlive
    obtain ⟨s, hs, _⟩ := hmem
    have hpos : 0 < r.sessions.length := List.length_pos.mpr (List.ne_nil_of_mem hs)
    have hc := h.1
    constructor
    · simp only
      omega
    · simpa [SDKRuntime.hasSessionEntry] using any_key_filter_ne sessionID r.sessions
  · intro sessionID force hdead
    rw [stop_dead r sessionID force hdead]

/-- Witness for C1 at a concrete runtime with one live session. -/
theorem sdk_slot_release_discipline_witness :
    (sdkR1.stop "hq-mayor" false).2.semCount + 1 = sdkR1.semCount
    ∧ (sdkR1.stop "hq-mayor" false).2.hasSessionEntry "hq-mayor" = false :=
  (sdk_slot_release_discipline sdkR1 (by decide)).2.2.1 "hq-mayor" false (by decide)

/-- C1 counterexample: with ceiling 1, after a successful Start of
hq-mayor and an internal run-loop exit of that session (the CLI
backend-start failure path), the session has terminated (running =
false) yet the held-slot count is still 1 — the slot was not released
by the internal termination and stays held until a Stop call. -/
theorem sdk_internal_termination_keeps_slot :
    (((NewSDKRuntime (some { maxConcurrentSessions := 1 }) envEmpty).runTrace
        [SDKEvent.start { role := "mayor" } 0, SDKEvent.runExit "hq-mayor"]).sessions.map
      fun s => (s.agent.sessionID, s.agent.running)) = [("hq-mayor", false)]
    ∧ ((NewSDKRuntime (some { maxConcurrentSessions := 1 }) envEmpty).runTrace
        [SDKEvent.start { role := "mayor" } 0, SDKEvent.runExit "hq-mayor"]).semCount = 1 := by
  decide

/-- C2: with the ceiling reached (as many live sessions as the
capacity), a further Start fails immediately with capacityExceeded and
changes nothing (no queuing); after a Stop of any live session a Start
whose computed id is fresh succeeds; the ceiling is the configured
value when positive and 10 when the configuration is absent or not
positive. -/
theorem sdk_capacity_admission (r : SDKRuntime) (h : r.Inv) :
    (∀ opts now, r.sessions.length = r.semCap →
        r.start opts now = (Except.error (RuntimeErr.capacityExceeded r.semCap), r))
    ∧ (∀ sessionID force opts now,
        r.hasSessionEntry sessionID = true →
        (r.stop sessionID force).2.hasSessionEntry (GenerateSessionID opts) = false →
        ((r.stop sessionID force).2.start opts now).1
          = Except.ok (GenerateSessionID opts))
    ∧ (∀ env, (NewSDKRuntime none env).semCap = 10)
    ∧ (∀ cfg env, cfg.maxConcurrentSessions ≤ 0 →
        (NewSDKRuntime (some cfg) env).semCap = 10)
    ∧ (∀ cfg env, 0 < cfg.maxConcurrentSessions →
        (NewSDKRuntime (some cfg) env).semCap = cfg.maxConcurrentSessions.toNat) := by
  obtain ⟨hcount, hcap, hnd⟩ := h
  refine ⟨?_, ?_, ?_, ?_, ?_⟩
  · intro opts now hfull
    apply start_full
    omega
  · intro sessionID force opts now hlive hfresh
    have hmem := (hasSessionEntry_iff r sessionID).mp hlive
    obtain ⟨s, hs, _⟩ := hmem
    have hpos : 0 < r.sessions.length := List.length_pos.mpr (List.ne_nil_of_mem hs)
    rw [stop_live r sessionID force hlive] at hfresh ⊢
    rw [start_ok _ opts now (by simp only; omega) hfresh]
  · intro env
    simp [NewSDKRuntime]
  · intro cfg env hle
    simp [NewSDKRuntime, hle]
  · intro cfg env hpos
    have : ¬ cfg.maxConcurrentSessions ≤ 0 := by omega
    simp [NewSDKRuntime, this]

/-- Witness for C2 at ceiling 1: the second Start fails with
capacityExceeded, and after stopping the live session a fresh Start
succeeds. -/
theorem sdk_capacity_admission_witness :
    sdkFull.start { role := "deacon" } 1
      = (Except.error (RuntimeErr.capacityExceeded sdkFull.semCap), sdkFull)
    ∧ ((sdkFull.stop "hq-mayor" false).2.start { role := "deacon" } 2).1
      = Except.ok (GenerateSessionID { role := "deacon" }) :=
  ⟨(sdk_capacity_admission sdkFull (by decide)).1 { role := "deacon" } 1 (by decide),
   (sdk_capacity_admission sdkFull (by decide)).2.1 "hq-mayor" false
     { role := "deacon" } 2 (by decide) (by decide)⟩

/-- C3 counterexample: on an SDK runtime with ceiling 1 whose single
live session is hq-mayor, a second Start computing the same id fails
with capacityExceeded, not sessionAlreadyExists — the admission check
precedes the duplicate-id check. -/
theorem sdk_duplicate_start_wrong_error_at_full_ceiling :
    sdkFull.hasSessionEntry "hq-mayor" = true
    ∧ GenerateSessionID { role := "mayor" } = "hq-mayor"
    ∧ (sdkFull.start { role := "mayor" } 1).1
        = Except.error (RuntimeErr.capacityExceeded 1)
    ∧ RuntimeErr.capacityExceeded 1 ≠ RuntimeErr.sessionAlreadyExists "hq-mayor" := by
  decide

/-- C3 (amended): a second Start computing a live session id fails and
leaves the runtime state — in particular the held-slot count —
unchanged: with a free semaphore slot the error is
sessionAlreadyExists, while at a full ceiling the admission check
fires first and the error is capacityExceeded. On the terminal runtime
a Start whose computed id names a live tmux session always fails with
sessionAlreadyExists and changes nothing. -/
theorem duplicate_start_rejected_without_leak (r : SDKRuntime) (h : r.Inv)
    (opts : StartOptions) (now : Int)
    (hlive : r.hasSessionEntry (GenerateSessionID opts) = true) :
    (r.semCount < r.semCap →
        r.start opts now
          = (Except.error (RuntimeErr.sessionAlreadyExists (GenerateSessionID opts)), r))
    ∧ (¬ r.semCount < r.semCap →
        r.start opts now = (Except.error (RuntimeErr.capacityExceeded r.semCap), r))
    ∧ (r.start opts now).2 = r
    ∧ (∀ (tr : TmuxRuntime) (topts : StartOptions) (tnow : Int),
        tr.server.live.contains (GenerateSessionID topts) = true →
        tr.start topts tnow
          = (Except.error (RuntimeErr.sessionAlreadyExists (GenerateSessionID topts)), tr)) := by
  refine ⟨fun hfree => start_dup r opts now hfree hlive,
          fun hfull => start_full r opts now hfull, ?_, ?_⟩
  · by_cases hfree : r.semCount < r.semCap
    · rw [start_dup r opts now hfree hlive]
    · rw [start_full r opts now hfree]
  · intro tr topts tnow hc
    have hm : GenerateSessionID topts ∈ tr.server.live := by simpa using hc
    simp [TmuxRuntime.start, hm]

/-- Witness for C3 on both runtimes with a free slot. -/
theorem duplicate_start_rejected_without_leak_witness :
    sdkR1.start { role := "mayor" } 5
      = (Except.error
          (RuntimeErr.sessionAlreadyExists (GenerateSessionID { role := "mayor" })), sdkR1)
    ∧ tmuxR1.start { role := "mayor" } 5
      = (Except.error
          (RuntimeErr.sessionAlreadyExists (GenerateSessionID { role := "mayor" })), tmuxR1) :=
  ⟨(duplicate_start_rejected_without_leak sdkR1 (by decide)
      { role := "mayor" } 5 (by decide)).1 (by decide),
   (duplicate_start_rejected_without_leak sdkR1 (by decide)
      { role := "mayor" } 5 (by decide)).2.2.2 tmuxR1 { role := "mayor" } 5 (by decide)⟩

lemma calls_step_end (conv : List MessageParam)
    (h : conv.getLast? = some asstToolMsg) :
    handleToolResultsCalls conv [endTurnReply] = 1 := by
  simp only [handleToolResultsCalls, h]
  simp [asstToolMsg, endTurnReply, toolUseBlocks, hasToolUse]

lemma calls_step_tool (conv : List MessageParam) (rest : List ModelReply)
    (h : conv.getLast? = some asstToolMsg) :
    handleToolResultsCalls conv (toolUseReply :: rest)
      = 1 + handleToolResultsCalls ((conv ++ [trMsg1]) ++ [asstToolMsg]) rest := by
  simp only [handleToolResultsCalls, h]
  simp [asstToolMsg, toolUseReply, trMsg1, toolResultsMessage, toolUseBlocks, hasToolUse]

lemma calls_toolchain (n : Nat) :
    ∀ conv : List MessageParam,
      conv.getLast? = some asstToolMsg →
      handleToolResultsCalls conv (List.replicate n toolUseReply ++ [endTurnReply])
        = n + 1 := by
  induction n with
  | zero =>
    intro conv h
    simpa using calls_step_end conv h
  | succ n ih =>
    intro conv h
    rw [List.replicate_succ, List.cons_append, calls_step_tool conv _ h,
        ih ((conv ++ [trMsg1]) ++ [asstToolMsg]) (by rw [List.getLast?_concat])]
    omega

/-- C4 counterexample: no bound N can bound the number of model calls
of one handleToolResults continuation — the recursion is not guarded
by any maximum-turn count. -/
theorem tool_continuation_unbounded : ¬ toolContinuationBounded := by
  rintro ⟨N, hN⟩
  have hb := hN convPendingTool (List.replicate N toolUseReply ++ [endTurnReply])
  rw [calls_toolchain N convPendingTool rfl] at hb
  omega

/-- C4 (amended): the tool-call continuation is implemented as
unguarded recursion (handleToolResults calls itself whenever the reply
carries a tool_use block with stop reason tool_use): a chain of n
consecutive tool-use replies produces exactly n + 1 model calls,
unbounded in n, with the chain ending only when the model itself stops
asking for tools. -/
theorem tool_continuation_calls_track_chain_length :
    ∀ n : Nat,
      handleToolResultsCalls convPendingTool
        (List.replicate n toolUseReply ++ [endTurnReply]) = n + 1 :=
  fun n => calls_toolchain n convPendingTool rfl

/-- C5 counterexample: the terminal runtime synthesizes health
unhealthy — not unknown — for an unknown id. -/
theorem tmux_getStatus_unknown_unhealthy :
    TmuxRuntime.getStatus {} probesEmpty "nonexistent" 0
      = Except.ok
          { session := { sessionID := "nonexistent", running := false, runtimeType := "tmux" }
            health := HealthState.unhealthy }
    ∧ HealthState.unhealthy ≠ HealthState.unknown := by
  exact ⟨rfl, by decide⟩

/-- C5 (amended): GetStatus never fails for an id with no live session
and reports running = false on both runtimes; the synthesized health is
unknown on the SDK runtime but unhealthy on the terminal runtime (its
code overwrites the initial unknown with unhealthy when the tmux
session is absent). -/
theorem getStatus_unknown_id (r : SDKRuntime) (tr : TmuxRuntime) (probes : TmuxProbes)
    (sessionID : String) (now : Int)
    (hsdk : r.sessions.find? (fun s => s.agent.sessionID == sessionID) = none)
    (htmux : tr.server.live.contains sessionID = false)
    (hstore : tr.sessions.lookup sessionID = none) :
    r.getStatus sessionID now
      = Except.ok
          { session := { sessionID := sessionID, running := false, runtimeType := "sdk" }
            health := HealthState.unknown }
    ∧ tr.getStatus probes sessionID now
      = Except.ok
          { session := { sessionID := sessionID, running := false, runtimeType := "tmux" }
            health := HealthState.unhealthy } := by
  constructor
  · simp [SDKRuntime.getStatus, hsdk]
  · have hm : sessionID ∉ tr.server.live := by simpa using htmux
    simp [TmuxRuntime.getStatus, hstore, hm]

/-- Witness for C5 on fresh empty runtimes. -/
theorem getStatus_unknown_id_witness :
    (NewSDKRuntime none envEmpty).getStatus "nonexistent" 0
      = Except.ok
          { session := { sessionID := "nonexistent", running := false, runtimeType := "sdk" }
            health := HealthState.unknown }
    ∧ TmuxRuntime.getStatus {} probesEmpty "nonexistent" 0
      = Except.ok
          { session := { sessionID := "nonexistent", running := false, runtimeType := "tmux" }
            health := HealthState.unhealthy } :=
  getStatus_unknown_id (NewSDKRuntime none envEmpty) {} probesEmpty "nonexistent" 0
    rfl rfl rfl

/-- C8: the route table of Server.Start registers no POST
/sessions/id/prompt pattern — for every session id such a request is
dispatched to no handler (ServeMux not-found), and the only POST
pattern registered at all is POST /sessions. -/
theorem prompt_route_unregistered :
    (∀ id : String, dispatch "POST" ["sessions", id, "prompt"] = none)
    ∧ (∀ route ∈ registeredRoutes, route.1 = "POST" →
        route.2.1 = [PatSeg.lit "sessions"]) := by
  constructor
  · intro id
    rfl
  · decide

/-- C9: the runtime mode is a pure function of the configuration: the
constructor yields identical runtimes under any two ambient process
environments, and direct-API mode (useCLI = false) holds iff the
configuration supplies a non-empty APIKey. -/
theorem sdk_mode_from_config_only :
    ∀ (cfg? : Option SDKRuntimeConfig) (env1 env2 : ProcEnv),
      NewSDKRuntime cfg? env1 = NewSDKRuntime cfg? env2
      ∧ ((NewSDKRuntime cfg? env1).useCLI = false ↔ (cfg?.getD {}).apiKey ≠ "") := by
  intro cfg? env1 env2
  refine ⟨rfl, ?_⟩
  simp [NewSDKRuntime]

lemma sdkActivityState_char (X : Int) :
    (sdkActivityState X = "stuck" ↔ 5 * minuteNS < X)
    ∧ (sdkActivityState X = "stale" ↔ 1 * minuteNS < X ∧ X ≤ 5 * minuteNS) := by
  unfold sdkActivityState
  constructor
  · constructor
    · intro hs
      by_contra hnot
      have h5 : ¬ X > 5 * minuteNS := by omega
      rw [if_neg h5] at hs
      by_cases h1 : X > 1 * minuteNS
      · rw [if_pos h1] at hs
        exact absurd hs (by decide)
      · rw [if_neg h1] at hs
        exact absurd hs (by decide)
    · intro h5
      rw [if_pos (by omega : X > 5 * minuteNS)]
  · constructor
    · intro hs
      by_cases h5 : X > 5 * minuteNS
      · rw [if_pos h5] at hs
        exact absurd hs (by decide)
      · rw [if_neg h5] at hs
        by_cases h1 : X > 1 * minuteNS
        · exact ⟨by omega, by omega⟩
        · rw [if_neg h1] at hs
          exact absurd hs (by decide)
    · rintro ⟨h1, h5⟩
      rw [if_neg (by omega : ¬ X > 5 * minuteNS), if_pos (by omega : X > 1 * minuteNS)]

/-- C10: for a live SDK session, GetStatus reports the status built
from the session record; when no response was ever recorded the idle
duration is measured from the session start (stuck above five minutes,
stale above one minute since start); once a response is recorded the
idle duration is measured from the last response time; and the idle
computation is independent of the last prompt time. -/
theorem sdk_idle_from_last_response_or_start (r : SDKRuntime) (sessionID : String)
    (now : Int) (sess : sdkSession)
    (hfind : r.sessions.find? (fun s => s.agent.sessionID == sessionID) = some sess) :
    r.getStatus sessionID now
      = Except.ok
          { session := sess.agent
            health := if sess.agent.running then HealthState.healthy else HealthState.unhealthy
            activity :=
              { lastActivity := sess.lastResp
                idleDuration := sdkIdleDuration sess now
                activityState := sdkActivityState (sdkIdleDuration sess now)
                lastPrompt := sess.lastPrompt
                lastResponse := sess.lastResp }
            sdkInfo := some
              { conversationID := sessionID
                tokensUsed := sess.tokenCount
                turnCount := sess.turnCount } }
    ∧ (sess.lastResp = none →
        sdkIdleDuration sess now = now - sess.agent.startedAt.getD 0
        ∧ (sdkActivityState (sdkIdleDuration sess now) = "stuck"
            ↔ 5 * minuteNS < now - sess.agent.startedAt.getD 0)
        ∧ (sdkActivityState (sdkIdleDuration sess now) = "stale"
            ↔ 1 * minuteNS < now - sess.agent.startedAt.getD 0
              ∧ now - sess.agent.startedAt.getD 0 ≤ 5 * minuteNS))
    ∧ (∀ t, sess.lastResp = some t → sdkIdleDuration sess now = now - t)
    ∧ (∀ p, sdkIdleDuration { sess with lastPrompt := p } now = sdkIdleDuration sess now) := by
  refine ⟨?_, ?_, ?_, fun _ => rfl⟩
  · simp [SDKRuntime.getStatus, hfind]
  · intro hnone
    have hidle : sdkIdleDuration sess now = now - sess.agent.startedAt.getD 0 := by
      simp [sdkIdleDuration, hnone]
    refine ⟨hidle, ?_, ?_⟩
    · rw [hidle]
      exact (sdkActivityState_char (now - sess.agent.startedAt.getD 0)).1
    · rw [hidle]
      exact (sdkActivityState_char (now - sess.agent.startedAt.getD 0)).2
  · intro t ht
    simp [sdkIdleDuration, ht]

/-- Witness for C10 at the concrete fresh session hq-mayor, six
minutes after its start and with no response recorded: idle is
measured from the start and the state is stuck. -/
theorem sdk_idle_from_last_response_or_start_witness :
    sdkIdleDuration (newSession { role := "mayor" } 0) (6 * minuteNS)
      = 6 * minuteNS - ((newSession { role := "mayor" } 0).agent.startedAt.getD 0)
    ∧ (sdkActivityState
        (sdkIdleDuration (newSession { role := "mayor" } 0) (6 * minuteNS)) = "stuck"
        ↔ 5 * minuteNS
            < 6 * minuteNS - ((newSession { role := "mayor" } 0).agent.startedAt.getD 0)) :=
  let h := (sdk_idle_from_last_response_or_start sdkR1 "hq-mayor" (6 * minuteNS)
    (newSession { role := "mayor" } 0) (by decide)).2.1 rfl
  ⟨h.1, h.2.1⟩

end Gastown
